import Mathlib

/-!
Shallow embedding of the 903 most-popular-song plotting pipeline
(src/plot.py, src/streamlit_app.py, src/youtube_data.py).

Numeric cells are modeled as Option Rat: none stands for a pandas missing
or non-finite value (NaN from a missing cell, inf or -inf from a zero
divisor); some q is an ordinary finite value. The column-shape check of
validate_data (the required-columns ValueError) is made vacuous by typing:
a Row always carries all four source columns.
-/

namespace SongPlot

/-- One row of the tabular dataset, columns Title, view per day, Total and
Year of data.csv, together with the three columns that normalize_data in
src/plot.py assigns. A derived column that has not been assigned yet is
none. -/
structure Row where
  title : String
  viewPerDay : Option ℚ
  total : Option ℚ
  year : Int
  normalizedViews : Option ℚ := none
  normalizedVotes : Option ℚ := none
  proportionDifference : Option ℚ := none
deriving DecidableEq

/-- Strict positivity test on an optional numeric cell; pandas x > 0
evaluates to False on a missing value. -/
def posOpt : Option ℚ → Bool
  | some x => decide (0 < x)
  | none => false

/-- Row-level condition kept by validate_data, src/plot.py lines 42 and
45-50: Year equals 2024, and view per day and Total are both non-null and
strictly greater than 0. -/
def eligibleRow (r : Row) : Bool :=
  (r.year == 2024) &&
    (r.viewPerDay.isSome && r.total.isSome && posOpt r.viewPerDay && posOpt r.total)

/-- Sort key of src/plot.py line 52: the view per day column. After the
filters the column is never missing; getD 0 totalizes the missing case. -/
def key (r : Row) : ℚ := r.viewPerDay.getD 0

/-- Insertion into a descending-sorted list. A row moves ahead of exactly
the rows with a strictly smaller key, so rows with equal keys keep their
relative order. The pandas call sort_values with the default kind does not
promise a tie order; this embedding fixes one. -/
def insertDesc (r : Row) : List Row → List Row
  | [] => [r]
  | x :: xs => if key x < key r then r :: x :: xs else x :: insertDesc r xs

/-- Sorting by view per day in descending order, src/plot.py line 52. -/
def sortDesc : List Row → List Row
  | [] => []
  | x :: xs => insertDesc x (sortDesc xs)

/-- validate_data of src/plot.py lines 35-58: keep the Year 2024 cohort
(line 42), keep rows whose view per day and Total are non-null and
positive (lines 45-50), then sort by view per day descending (line 52).
The boolean-mask selections and the explicit copy on line 42 build a new
frame, so the input list is not touched. -/
def validate_data (df : List Row) : List Row :=
  let cohort := df.filter (fun r => r.year == 2024)
  let complete := cohort.filter (fun r =>
    r.viewPerDay.isSome && r.total.isSome && posOpt r.viewPerDay && posOpt r.total)
  sortDesc complete

/-- The hardcoded reference title of src/plot.py line 63. -/
def referenceTitle : String := "《Hey Hey OK!》"

/-- Reference selection inside normalize_data, src/plot.py line 63: the
boolean mask keeps the rows whose Title equals the reference title, and
iloc zero takes the first of them in the current frame order. On an empty
selection iloc raises an IndexError, modeled by head? returning none. -/
def select_reference (df : List Row) : Option Row :=
  (df.filter (fun r => r.title == referenceTitle)).head?

/-- Pandas column division, src/plot.py lines 71-72. A missing operand
gives NaN and a zero divisor gives inf or -inf, never an exception; both
non-finite outcomes are modeled by none. -/
def pdDiv (a b : Option ℚ) : Option ℚ :=
  match a, b with
  | some x, some y => if y = 0 then none else some (x / y)
  | _, _ => none

/-- The column assignments of normalize_data, src/plot.py lines 71-75,
applied to one row given the reference row. -/
def normRow (ref r : Row) : Row :=
  let nv := (pdDiv r.viewPerDay ref.viewPerDay).map (fun q => q * 100)
  let nt := (pdDiv r.total ref.total).map (fun q => q * 100)
  { r with
      normalizedViews := nv
      normalizedVotes := nt
      proportionDifference :=
        match nv, nt with
        | some a, some b => some (a - b)
        | _, _ => none }

/-- Errors raised by the pipeline. referenceNotFound models the IndexError
raised by iloc zero on an empty title selection at src/plot.py line 63. -/
inductive PlotError
  | referenceNotFound
deriving DecidableEq

/-- normalize_data of src/plot.py lines 60-77: select the reference row,
then assign the three derived columns to every row of the frame. -/
def normalize_data (df : List Row) : Except PlotError (List Row) :=
  match select_reference df with
  | none => .error .referenceNotFound
  | some ref => .ok (df.map (normRow ref))

/-- The per-row annotation condition of src/plot.py line 148: a signed
difference label is drawn exactly when the absolute proportion difference
is strictly greater than the hardcoded 5. A missing difference draws
nothing, as a NaN comparison is False. -/
def annotateRow (r : Row) : Bool :=
  match r.proportionDifference with
  | some d => decide (5 < |d|)
  | none => false

/-- Observable outcome of create_dual_axis_plot: the derived rows in plot
order, the rows that receive a difference annotation (lines 143-152), the
files written by savefig (lines 155-156), and the Python return value.
The source function is annotated -> None and has no return statement, so
returnedFig is always none. -/
structure RenderOut where
  rows : List Row
  annotations : List Row
  written : List String
  returnedFig : Option Unit
deriving DecidableEq

/-- create_dual_axis_plot of src/plot.py lines 79-163: validate, then
normalize; any error is logged and re-raised by the except block at lines
161-163, so it propagates to the caller. savefig runs only under the
Python truthiness test on output_path at line 155, so neither None nor an
empty string writes a file. The function returns None. -/
def create_dual_axis_plot (df : List Row) (output_path : Option String) :
    Except PlotError RenderOut :=
  match normalize_data (validate_data df) with
  | .error e => .error e
  | .ok rows =>
    .ok { rows := rows
          annotations := rows.filter annotateRow
          written :=
            match output_path with
            | some p => if p = "" then [] else [p]
            | none => []
          returnedFig := none }

/-! ### Frame-effect model

DataFrame objects live on a small heap of numbered frames so that the
in-place effects of the source are visible: validate_data builds a fresh
frame (the boolean masks and the copy on line 42), while normalize_data
assigns columns in place on the frame it receives (lines 71-75). -/

/-- A heap of dataframes with a fresh-address counter. -/
structure PState where
  heap : Nat → List Row
  next : Nat

/-- In-place write to the frame at address a. -/
def writeFrame (s : PState) (a : Nat) (df : List Row) : PState :=
  ⟨fun i => if i = a then df else s.heap i, s.next⟩

/-- Allocation of a new frame, returning the new state and the address. -/
def allocFrame (s : PState) (df : List Row) : PState × Nat :=
  (⟨fun i => if i = s.next then df else s.heap i, s.next + 1⟩, s.next)

/-- The pipeline prefix of create_dual_axis_plot, lines 89-90, on the
heap: validate_data reads the caller frame at address a and allocates a
fresh filtered copy at a new address b (the copy on line 42); then
normalize_data mutates frame b in place by assigning the derived columns
(lines 71-75). Returns the final state and the address of the derived
frame. -/
def pipeline_heap (s : PState) (a : Nat) : Except PlotError (PState × Nat) :=
  let s1 := (allocFrame s (validate_data (s.heap a))).1
  let b := (allocFrame s (validate_data (s.heap a))).2
  match select_reference (s1.heap b) with
  | none => .error .referenceNotFound
  | some ref => .ok (writeFrame s1 b ((s1.heap b).map (normRow ref)), b)

/-! ### Refresh loop and remote lookup

src/youtube_data.py and the update branch of src/streamlit_app.py lines
41-53. Python values that flow through the loop are dynamically typed, so
they are modeled by a small value type, and the tuple returned by
get_video_stats is modeled by a list of such values, keeping its length
observable: the caller unpacks it into three variables. -/

/-- A dynamically typed Python value crossing the lookup boundary. -/
inductive PyVal
  | intV (n : Nat)
  | strV (s : String)
  | noneV
deriving DecidableEq

/-- get_video_stats of src/youtube_data.py lines 4-43. The remote API is
abstracted as a function from a video id to an optional pair of view
count and upload date; any failure inside the try block (network error,
no matching video, malformed response) is caught by the except at lines
41-43 and folded into the return of the pair None, None. On success the
function returns the pair view_count, upload_date. Either way the result
is a 2-tuple. -/
def get_video_stats (api : String → Option (Nat × String)) (videoId : String) :
    List PyVal :=
  match api videoId with
  | some (v, d) => [.intV v, .strV d]
  | none => [.noneV, .noneV]

/-- Errors escaping the refresh loop. valueErrorUnpack models the Python
ValueError raised when tuple unpacking finds the wrong number of
values. -/
inductive RefreshError
  | valueErrorUnpack
deriving DecidableEq

/-- Python unpacking of a tuple into three variables, as on
src/streamlit_app.py line 47: succeeds only on a 3-tuple. -/
def unpack3 : List PyVal → Except RefreshError (PyVal × PyVal × PyVal)
  | [a, b, c] => .ok (a, b, c)
  | _ => .error .valueErrorUnpack

/-- Python truthiness of a value, for the guard on line 48. -/
def truthy : PyVal → Bool
  | .intV n => n != 0
  | .strV s => s ≠ ""
  | .noneV => false

/-- One stored statistics observation row. -/
structure CsvRow where
  videoId : String
  title : PyVal
  views : PyVal
  date : PyVal
deriving DecidableEq

/-- Modelled from the spec: write_to_csv is imported by
src/streamlit_app.py line 4 but is not defined in src/youtube_data.py or
anywhere under src. Section 4.2 of the specification describes the store
write as append_or_update with append-only semantics, each refresh
appending a new dated row; modeled as appending one row to the store. -/
def write_to_csv (store : List CsvRow) (videoId : String) (t v d : PyVal) :
    List CsvRow :=
  store ++ [⟨videoId, t, v, d⟩]

/-- The refresh loop of src/streamlit_app.py lines 46-50: for each id,
unpack the result of get_video_stats into title, views, date, and write
to the store when views and date are truthy. The unpacking is not inside
any try block, so its ValueError propagates out of the loop. -/
def refresh_loop (api : String → Option (Nat × String)) (store : List CsvRow) :
    List String → Except RefreshError (List CsvRow)
  | [] => .ok store
  | id :: rest =>
    match unpack3 (get_video_stats api id) with
    | .error e => .error e
    | .ok (t, v, d) =>
      refresh_loop api
        (if truthy v && truthy d then write_to_csv store id t v d else store) rest

/-! ### Lemmas about the sort and the filters -/

/-- Descending sortedness by the view per day key. -/
abbrev SortedDesc (l : List Row) : Prop :=
  l.Pairwise (fun a b => key b ≤ key a)

lemma mem_insertDesc (r x : Row) (l : List Row) :
    x ∈ insertDesc r l ↔ x = r ∨ x ∈ l := by
  induction l with
  | nil => simp [insertDesc]
  | cons y ys ih =>
    by_cases h : key y < key r
    · simp [insertDesc, h, List.mem_cons]
    · simp [insertDesc, h, List.mem_cons, ih]
      tauto

lemma mem_sortDesc (x : Row) (l : List Row) : x ∈ sortDesc l ↔ x ∈ l := by
  induction l with
  | nil => simp [sortDesc]
  | cons y ys ih => simp [sortDesc, mem_insertDesc, ih, List.mem_cons]

lemma sorted_insertDesc (r : Row) (l : List Row) (h : SortedDesc l) :
    SortedDesc (insertDesc r l) := by
  induction l with
  | nil => simp [insertDesc]
  | cons y ys ih =>
    rcases List.pairwise_cons.mp h with ⟨hy, hys⟩
    by_cases hlt : key y < key r
    · rw [insertDesc, if_pos hlt]
      refine List.pairwise_cons.mpr ⟨?_, h⟩
      intro z hz
      rcases List.mem_cons.mp hz with rfl | hz
      · exact le_of_lt hlt
      · exact le_trans (hy z hz) (le_of_lt hlt)
    · rw [insertDesc, if_neg hlt]
      refine List.pairwise_cons.mpr ⟨?_, ih hys⟩
      intro z hz
      rcases (mem_insertDesc r z ys).mp hz with rfl | hz
      · exact not_lt.mp hlt
      · exact hy z hz

lemma sortDesc_sorted (l : List Row) : SortedDesc (sortDesc l) := by
  induction l with
  | nil => simp [sortDesc]
  | cons y ys ih => exact sorted_insertDesc y _ ih

lemma validate_data_sorted (df : List Row) : SortedDesc (validate_data df) :=
  sortDesc_sorted _

/-- Membership in the output of validate_data, in the boolean form of the
source filters. -/
lemma mem_validate (df : List Row) (r : Row) :
    r ∈ validate_data df ↔ (r ∈ df ∧ eligibleRow r = true) := by
  unfold validate_data
  rw [mem_sortDesc]
  simp only [List.mem_filter, eligibleRow, Bool.and_eq_true, beq_iff_eq, and_assoc]

/-- Unpacking the eligibility boolean into its numeric content. -/
lemma eligibleRow_elim {r : Row} (h : eligibleRow r = true) :
    r.year = 2024 ∧ (∃ v, r.viewPerDay = some v ∧ 0 < v) ∧
      (∃ t, r.total = some t ∧ 0 < t) := by
  unfold eligibleRow posOpt at h
  cases hv : r.viewPerDay with
  | none => rw [hv] at h; simp at h
  | some v =>
    cases ht : r.total with
    | none => rw [hv, ht] at h; simp at h
    | some t =>
      rw [hv, ht] at h
      simp only [Bool.and_eq_true, beq_iff_eq, Option.isSome_some, decide_eq_true_eq,
        true_and] at h
      obtain ⟨h1, h2, h3⟩ := h
      exact ⟨h1, ⟨v, rfl, h2⟩, ⟨t, rfl, h3⟩⟩

/-- The head of a filtered list belongs to the list and satisfies the
predicate. -/
lemma mem_of_head?_filter {p : Row → Bool} {l : List Row} {r : Row}
    (h : (l.filter p).head? = some r) : r ∈ l ∧ p r = true := by
  have hr : r ∈ l.filter p := by
    cases hf : l.filter p with
    | nil => rw [hf] at h; cases h
    | cons a as =>
      rw [hf] at h
      cases h
      exact List.mem_cons_self _ _
  exact ⟨(List.mem_filter.mp hr).1, (List.mem_filter.mp hr).2⟩

/-- On a descending-sorted list, the first row satisfying a predicate has
the largest key among all rows satisfying it. -/
lemma head?_filter_max {p : Row → Bool} {l : List Row} {r : Row}
    (hs : SortedDesc l) (h : (l.filter p).head? = some r) :
    ∀ x ∈ l, p x = true → key x ≤ key r := by
  induction l with
  | nil => intro x hx; cases hx
  | cons y ys ih =>
    rcases List.pairwise_cons.mp hs with ⟨hy, hys⟩
    by_cases hp : p y = true
    · rw [List.filter_cons_of_pos hp] at h
      cases h
      intro x hx _
      rcases List.mem_cons.mp hx with rfl | hx
      · exact le_refl _
      · exact hy x hx
    · rw [List.filter_cons_of_neg (by simpa using hp)] at h
      intro x hx hpx
      rcases List.mem_cons.mp hx with rfl | hx
      · exact absurd hpx hp
      · exact ih hys h x hx hpx

/-- The derived columns of the reference row itself: both ratios are the
reference value over itself, so both normalized columns are 100 and the
difference is 0, provided the reference values are nonzero. -/
lemma normRow_self (r : Row) (v t : ℚ) (hv : r.viewPerDay = some v) (hv0 : 0 < v)
    (ht : r.total = some t) (ht0 : 0 < t) :
    (normRow r r).normalizedViews = some 100 ∧
      (normRow r r).normalizedVotes = some 100 ∧
      (normRow r r).proportionDifference = some 0 := by
  have hvne : v ≠ 0 := ne_of_gt hv0
  have htne : t ≠ 0 := ne_of_gt ht0
  simp [normRow, pdDiv, hv, ht, hvne, htne, div_self]

/-! ### Concrete rows for witnesses and counterexamples -/

/-- An eligible reference-titled row. -/
def refRow : Row := ⟨referenceTitle, some 4, some 2, 2024, none, none, none⟩

/-- An eligible row with a different title. -/
def otherRow : Row := ⟨"Other Song", some 4, some 2, 2024, none, none, none⟩

/-- A reference-titled row whose view per day is zero. -/
def zeroRefRow : Row := ⟨referenceTitle, some 0, some 3, 2024, none, none, none⟩

/-- Two eligible rows sharing the reference title, distinct keys. -/
def dupLow : Row := ⟨referenceTitle, some 10, some 5, 2024, none, none, none⟩

/-- The higher-keyed of the two duplicate reference-titled rows. -/
def dupHigh : Row := ⟨referenceTitle, some 20, some 5, 2024, none, none, none⟩

/-- Reference row of the annotation evaluations. -/
def annRef : Row := ⟨referenceTitle, some 1000, some 1000, 2024, none, none, none⟩

/-- A row whose proportion difference comes out to -2. -/
def annSmall : Row := ⟨"Small Gap", some 980, some 1000, 2024, none, none, none⟩

/-- A row whose proportion difference comes out to -50. -/
def annBig : Row := ⟨"Big Gap", some 500, some 1000, 2024, none, none, none⟩

/-! ### Claim theorems -/

/-- C1: over a record set of eligible rows, normalize_data succeeds and
maps the selected reference record itself to normalized views exactly
100, normalized votes exactly 100 and proportion difference exactly 0. -/
theorem claim1_reference_maps_to_100 (L : List Row) (r : Row)
    (hall : ∀ x ∈ L, eligibleRow x = true)
    (href : select_reference L = some r) :
    ∃ out, normalize_data L = .ok out ∧ normRow r r ∈ out ∧
      (normRow r r).normalizedViews = some 100 ∧
      (normRow r r).normalizedVotes = some 100 ∧
      (normRow r r).proportionDifference = some 0 := by
  have href' := href
  unfold select_reference at href'
  have hm := mem_of_head?_filter href'
  obtain ⟨-, ⟨v, hv, hv0⟩, ⟨t, ht, ht0⟩⟩ := eligibleRow_elim (hall r hm.1)
  obtain ⟨h100v, h100t, h0⟩ := normRow_self r v t hv hv0 ht ht0
  refine ⟨L.map (normRow r), ?_, List.mem_map_of_mem _ hm.1, h100v, h100t, h0⟩
  unfold normalize_data
  rw [href]

/-- Witness for C1 at a concrete one-row eligible set. -/
theorem claim1_witness :
    ∃ out, normalize_data [refRow] = .ok out ∧ normRow refRow refRow ∈ out ∧
      (normRow refRow refRow).normalizedViews = some 100 ∧
      (normRow refRow refRow).normalizedVotes = some 100 ∧
      (normRow refRow refRow).proportionDifference = some 0 :=
  claim1_reference_maps_to_100 [refRow] refRow (by decide) (by decide)

/-- C2: validate_data keeps exactly the input rows whose Year equals the
configured cohort year 2024 and whose view per day and Total are both
present and strictly greater than 0. -/
theorem claim2_filter_membership (df : List Row) (r : Row) :
    r ∈ validate_data df ↔
      (r ∈ df ∧ r.year = 2024 ∧
        (∃ v, r.viewPerDay = some v ∧ 0 < v) ∧
        (∃ t, r.total = some t ∧ 0 < t)) := by
  rw [mem_validate]
  constructor
  · rintro ⟨hmem, helig⟩
    exact ⟨hmem, eligibleRow_elim helig⟩
  · rintro ⟨hmem, hyear, ⟨v, hv, hv0⟩, ⟨t, ht, ht0⟩⟩
    refine ⟨hmem, ?_⟩
    unfold eligibleRow posOpt
    rw [hv, ht]
    simp [hyear, hv0, ht0]

/-- C4: when no eligible record carries the configured reference title,
the render call fails with the reference-not-found error, which the
except block of create_dual_axis_plot re-raises to its caller. -/
theorem claim4_reference_not_found (df : List Row) (p : Option String)
    (h : ∀ r ∈ df, eligibleRow r = true → r.title ≠ referenceTitle) :
    create_dual_axis_plot df p = .error .referenceNotFound := by
  have hsel : select_reference (validate_data df) = none := by
    unfold select_reference
    rw [List.head?_eq_none_iff, List.filter_eq_nil_iff]
    intro a ha
    have hm := (mem_validate df a).mp ha
    simpa using h a hm.1 hm.2
  unfold create_dual_axis_plot normalize_data
  rw [hsel]

/-- Witness for C4 at a concrete set whose only row has another title. -/
theorem claim4_witness :
    create_dual_axis_plot [otherRow] none = .error .referenceNotFound :=
  claim4_reference_not_found [otherRow] none (by decide)

/-- C5 counterexample: with a selected reference row whose view per day
is zero, normalize_data succeeds; the source has no division guard and
raises nothing, the division value being non-finite. -/
theorem claim5_counterexample :
    select_reference [zeroRefRow] = some zeroRefRow ∧
      zeroRefRow.viewPerDay = some 0 ∧
      (normalize_data [zeroRefRow]).isOk = true :=
  ⟨by decide, by decide, by decide⟩

/-- C5 amended: the zero branch is indeed unreachable inside the
pipeline: a reference selected from the validate_data output always has
strictly positive view per day and Total. -/
theorem claim5_reference_positive (df : List Row) (r : Row)
    (h : select_reference (validate_data df) = some r) :
    (∃ v, r.viewPerDay = some v ∧ 0 < v) ∧
      (∃ t, r.total = some t ∧ 0 < t) := by
  unfold select_reference at h
  have hm := mem_of_head?_filter h
  have hel := (mem_validate df r).mp hm.1
  exact (eligibleRow_elim hel.2).2

/-- Witness for C5 amended at a concrete one-row set. -/
theorem claim5_witness :
    (∃ v, refRow.viewPerDay = some v ∧ 0 < v) ∧
      (∃ t, refRow.total = some t ∧ 0 < t) :=
  claim5_reference_positive [refRow] refRow (by decide)

/-- C6: the derivation pipeline leaves the caller frame untouched: the
filter step allocates a fresh copy and the normalize step assigns its
columns on that copy only, so after a successful run the frame at the
caller address holds exactly its old rows. -/
theorem claim6_caller_frame_unchanged (s : PState) (a : Nat) (h : a < s.next)
    (s2 : PState) (b : Nat) (hok : pipeline_heap s a = .ok (s2, b)) :
    s2.heap a = s.heap a := by
  have hne : a ≠ s.next := Nat.ne_of_lt h
  dsimp only [pipeline_heap] at hok
  split at hok
  · cases hok
  · injection hok with hpair
    injection hpair with h1 h2
    subst h1
    simp [writeFrame, allocFrame, hne]

/-- State holding the caller frame of the C6 witness at address 0. -/
def state0 : PState := ⟨fun i => if i = 0 then [refRow] else [], 1⟩

/-- The state after running the pipeline of the C6 witness. -/
def stateAfter : PState :=
  match pipeline_heap state0 0 with
  | .ok (s, _) => s
  | .error _ => state0

/-- Witness for C6 at a concrete one-frame heap. -/
theorem claim6_witness : stateAfter.heap 0 = state0.heap 0 :=
  claim6_caller_frame_unchanged state0 0 (by decide) stateAfter 1 rfl

/-- C7 counterexample: a derived record with proportion difference -2
draws no annotation, although the claimed configurable threshold with
default 0 would annotate it; the render call has no threshold parameter
and uses the literal 5. -/
theorem claim7_counterexample :
    (create_dual_axis_plot [annRef, annSmall] none).toOption.map
        (fun o => (o.rows.map Row.proportionDifference, o.annotations)) =
      some ([some 0, some (-2)], []) := by
  norm_num [create_dual_axis_plot, validate_data, sortDesc, insertDesc, key,
    normalize_data, select_reference, referenceTitle, normRow, pdDiv, annotateRow,
    annRef, annSmall, posOpt]
  exact ⟨_, rfl, rfl, rfl⟩

/-- C7 amended: a derived record is annotated exactly when its proportion
difference is present with absolute value strictly greater than the
hardcoded 5. -/
theorem claim7_annotation_iff (df : List Row) (p : Option String) (out : RenderOut)
    (h : create_dual_axis_plot df p = .ok out) (r : Row) :
    r ∈ out.annotations ↔
      (r ∈ out.rows ∧ ∃ d, r.proportionDifference = some d ∧ 5 < |d|) := by
  unfold create_dual_axis_plot at h
  cases hn : normalize_data (validate_data df) with
  | error e => rw [hn] at h; cases h
  | ok rows =>
    rw [hn] at h
    cases h
    simp only [List.mem_filter]
    constructor
    · rintro ⟨hr, ha⟩
      refine ⟨hr, ?_⟩
      unfold annotateRow at ha
      cases hd : r.proportionDifference with
      | none => rw [hd] at ha; cases ha
      | some d => rw [hd] at ha; exact ⟨d, rfl, by simpa using ha⟩
    · rintro ⟨hr, d, hd, h5⟩
      refine ⟨hr, ?_⟩
      unfold annotateRow
      rw [hd]
      simpa using h5

/-- Render outcome of the C7 witness. -/
def renderOutAnn : RenderOut :=
  match create_dual_axis_plot [annRef, annSmall, annBig] none with
  | .ok o => o
  | .error _ => ⟨[], [], [], none⟩

/-- Witness for C7 amended at a concrete render call. -/
theorem claim7_witness :
    normRow annRef annBig ∈ renderOutAnn.annotations ↔
      (normRow annRef annBig ∈ renderOutAnn.rows ∧
        ∃ d, (normRow annRef annBig).proportionDifference = some d ∧ 5 < |d|) :=
  claim7_annotation_iff [annRef, annSmall, annBig] none renderOutAnn rfl _

/-- C8: with no output path create_dual_axis_plot writes no file, but it
also returns None instead of the chart object: the source function has no
return statement and closes the figure, while its caller in
src/streamlit_app.py embeds the returned value. -/
theorem claim8_returns_none_writes_nothing :
    ((create_dual_axis_plot [refRow] none).toOption.map
        (fun o => (o.written, o.returnedFig)) = some ([], none)) ∧
      ∀ df : List Row,
        match create_dual_axis_plot df none with
        | .ok o => o.written = [] ∧ o.returnedFig = none
        | .error _ => True := by
  constructor
  · decide
  · intro df
    unfold create_dual_axis_plot
    cases normalize_data (validate_data df) <;> simp

/-- C9: the refresh loop raises on its first iteration whatever the
remote lookup returns, because get_video_stats yields a pair while the
loop unpacks three values; the ValueError escapes the loop and nothing is
written to the store. -/
theorem claim9_refresh_loop_crashes
    (api : String → Option (Nat × String)) (store : List CsvRow)
    (id : String) (rest : List String) :
    refresh_loop api store (id :: rest) = .error .valueErrorUnpack := by
  unfold refresh_loop get_video_stats
  cases api id <;> rfl

/-- C10: with at least one reference-titled row in the filtered frame,
normalize_data does not fail and takes the first matching row of the
post-filter order, which on the descending-sorted validate_data output
has the largest view per day among the matching rows. -/
theorem claim10_first_match_is_reference (df : List Row) (r : Row)
    (h : select_reference (validate_data df) = some r) :
    (normalize_data (validate_data df)).isOk = true ∧
      r.title = referenceTitle ∧
      ∀ x ∈ validate_data df, x.title = referenceTitle → key x ≤ key r := by
  refine ⟨?_, ?_, ?_⟩
  · unfold normalize_data
    rw [h]
    rfl
  · have h' := h
    unfold select_reference at h'
    have hm := mem_of_head?_filter h'
    simpa using hm.2
  · intro x hx hxt
    have h' := h
    unfold select_reference at h'
    exact head?_filter_max (validate_data_sorted df) h' x hx (by simp [hxt])

/-- Witness for C10 at a concrete set with two reference-titled rows. -/
theorem claim10_witness :
    (normalize_data (validate_data [dupLow, dupHigh])).isOk = true ∧
      dupHigh.title = referenceTitle ∧
      ∀ x ∈ validate_data [dupLow, dupHigh],
        x.title = referenceTitle → key x ≤ key dupHigh :=
  claim10_first_match_is_reference [dupLow, dupHigh] dupHigh (by decide)

end SongPlot
